import Mathlib

/-!
Shallow embedding of the AWS-EC2-BillableResources repository.

Source files embedded:
  * `ec2_resource_discovery.py` — the `EC2ResourceDiscovery` class: one
    collector per resource kind plus the `discover_all_resources`
    orchestrator.  The boto3 client is modelled as a `Provider` record of
    response functions; a boto3 `ClientError` is modelled by the
    `ClientError` structure; a collector returns the pair of its result
    list and the list of error messages it prints.
  * `table_formatter.py` — the `ResourceTableFormatter` class.  The
    external `tabulate` collaborator is a function parameter.
  * `aws_ec2_resource_discovery.py` — the CLI instance-id validation.

Python dictionaries are embedded as ordered association lists
(`List (String × Value)`), preserving insertion order; in this program
every dict value is either a scalar, a list of strings or a
string-to-string mapping, which `Value` captures exactly.
-/

namespace EC2Discovery

/-- Values that occur in the resource dictionaries of this program:
scalars (`None`, strings, integers, booleans), lists of strings
(security-group id lists) and string-to-string mappings (tags). -/
inductive Value where
  | vnone : Value
  | vstr : String → Value
  | vnat : Nat → Value
  | vbool : Bool → Value
  | vlist : List String → Value
  | vdict : List (String × String) → Value
deriving DecidableEq, Repr, Inhabited

/-- One resource record: a Python dict in insertion order. -/
abbrev Resource := List (String × Value)

/-- Tag mapping in insertion order (Python dict of string to string). -/
abbrev Tags := List (String × String)

/-- Model of a botocore `ClientError`: the error code from
`e.response[Error][Code]` and the rendered message `str(e)`. -/
structure ClientError where
  code : String
  message : String
deriving DecidableEq, Repr, Inhabited

/-- Raw volume attachment entry from `describe_volumes`. -/
structure RawAttachment where
  instanceId : String
  device : String
  deleteOnTermination : Bool
deriving DecidableEq, Repr, Inhabited

/-- Raw volume from the `describe_volumes` response (the fields the
source reads). -/
structure RawVolume where
  volumeId : String
  size : Nat
  volumeType : String
  state : String
  encrypted : Bool
  iops : Option Nat
  throughput : Option Nat
  attachments : List RawAttachment
  tags : Tags
deriving DecidableEq, Repr, Inhabited

/-- Raw network interface from `describe_network_interfaces`. -/
structure RawENI where
  networkInterfaceId : String
  interfaceType : Option String
  status : String
  subnetId : String
  vpcId : String
  privateIpAddress : Option String
  associationPublicIp : Option String
  groups : List String
  sourceDestCheck : Option Bool
  tagSet : Tags
deriving DecidableEq, Repr, Inhabited

/-- Raw snapshot from `describe_snapshots`; `startTime` holds the
already-ISO-formatted timestamp string. -/
structure RawSnapshot where
  snapshotId : String
  volumeId : String
  volumeSize : Nat
  state : String
  progress : Option String
  startTime : String
  description : Option String
  encrypted : Bool
  tags : Tags
deriving DecidableEq, Repr, Inhabited

/-- Raw image from `describe_images`. -/
structure RawImage where
  imageId : String
  name : Option String
  description : Option String
  state : String
  architecture : Option String
  platform : Option String
  virtualizationType : Option String
  rootDeviceType : Option String
  creationDate : Option String
  public : Option Bool
  tags : Tags
deriving DecidableEq, Repr, Inhabited

/-- Raw security group from `describe_security_groups`; the permission
lists are kept as opaque entries since the source only takes their
length. -/
structure RawSecurityGroup where
  groupId : String
  groupName : String
  description : String
  vpcId : Option String
  ipPermissions : List String
  ipPermissionsEgress : List String
  tags : Tags
deriving DecidableEq, Repr, Inhabited

/-- Raw address from `describe_addresses`. -/
structure RawAddress where
  allocationId : Option String
  publicIp : String
  privateIpAddress : Option String
  domain : Option String
  networkInterfaceId : Option String
  associationId : Option String
  tags : Tags
deriving DecidableEq, Repr, Inhabited

/-- Raw instance as loaded by `ec2_resource.Instance(id).load()`;
`securityGroups` holds the GroupId of each entry of
`instance.security_groups`, and `launchTime` the ISO-formatted launch
time when present. -/
structure RawInstance where
  id : String
  instanceType : String
  stateName : String
  launchTime : Option String
  availabilityZone : String
  vpcId : Option String
  subnetId : Option String
  privateIpAddress : Option String
  publicIpAddress : Option String
  imageId : Option String
  keyName : Option String
  securityGroups : List String
  tags : Tags
deriving DecidableEq, Repr, Inhabited

/-- The provider (boto3 EC2 client/resource) as a record of response
functions: each describe-style query either succeeds with its payload or
raises a `ClientError`. -/
structure Provider where
  loadInstance : String → Except ClientError RawInstance
  describeVolumes : String → Except ClientError (List RawVolume)
  describeNetworkInterfaces : String → Except ClientError (List RawENI)
  describeSnapshots : List String → Except ClientError (List RawSnapshot)
  describeImages : String → Except ClientError (List RawImage)
  describeSecurityGroups : List String → Except ClientError (List RawSecurityGroup)
  describeAddresses : String → Except ClientError (List RawAddress)

/-- Embedding of Python optional-string values: `None` becomes `vnone`. -/
def optStr : Option String → Value
  | some s => Value.vstr s
  | none => Value.vnone

/-- Embedding of Python optional-bool values. -/
def optBool : Option Bool → Value
  | some b => Value.vbool b
  | none => Value.vnone

/-- Embedding of `d.get(key, default)` for a string default. -/
def strOrD (d : String) : Option String → Value
  | some s => Value.vstr s
  | none => Value.vstr d

/-- Embedding of `volume.get(key, "N/A")` for numeric fields. -/
def natOrNA : Option Nat → Value
  | some n => Value.vnat n
  | none => Value.vstr "N/A"

/-- Embedding of `d.get(key, False)` for boolean fields. -/
def boolOrFalse : Option Bool → Value
  | some b => Value.vbool b
  | none => Value.vbool false

/-- Instance details dict built by `get_instance_details`. -/
structure InstanceDetails where
  instance_id : String
  instance_type : String
  state : String
  launch_time : Option String
  availability_zone : String
  vpc_id : Option String
  subnet_id : Option String
  private_ip : Option String
  public_ip : Option String
  image_id : Option String
  key_name : Option String
  tags : Tags
deriving DecidableEq, Repr, Inhabited

/-- Failures of `get_instance_details`: the `ValueError` raised for the
not-found code, or the re-raised `ClientError` for every other code. -/
inductive FetchError where
  | valueError : String → FetchError
  | clientError : ClientError → FetchError
deriving DecidableEq, Repr

/-- Embedding of `EC2ResourceDiscovery.get_instance_details`: loads the
instance and builds the details dict; the not-found client error is
turned into a `ValueError`, any other client error is re-raised. -/
def get_instance_details (p : Provider) (instance_id : String) :
    Except FetchError InstanceDetails :=
  match p.loadInstance instance_id with
  | Except.error e =>
      if e.code = "InvalidInstanceID.NotFound" then
        Except.error (FetchError.valueError ("Instance " ++ instance_id ++ " not found"))
      else
        Except.error (FetchError.clientError e)
  | Except.ok inst =>
      Except.ok
        { instance_id := inst.id
          instance_type := inst.instanceType
          state := inst.stateName
          launch_time := inst.launchTime
          availability_zone := inst.availabilityZone
          vpc_id := inst.vpcId
          subnet_id := inst.subnetId
          private_ip := inst.privateIpAddress
          public_ip := inst.publicIpAddress
          image_id := inst.imageId
          key_name := inst.keyName
          tags := inst.tags }

/-- Volume record built inside `get_associated_volumes`: the dict in
insertion order, with device and delete-on-termination taken from the
first attachment whose instance id matches (defaults `None` / `False`). -/
def volume_info (instance_id : String) (volume : RawVolume) : Resource :=
  let att := volume.attachments.find? (fun a => a.instanceId == instance_id)
  [("resource_type", Value.vstr "EBS Volume"),
   ("resource_id", Value.vstr volume.volumeId),
   ("size_gb", Value.vnat volume.size),
   ("volume_type", Value.vstr volume.volumeType),
   ("state", Value.vstr volume.state),
   ("encrypted", Value.vbool volume.encrypted),
   ("iops", natOrNA volume.iops),
   ("throughput", natOrNA volume.throughput),
   ("device", match att with | some a => Value.vstr a.device | none => Value.vnone),
   ("delete_on_termination",
     match att with | some a => Value.vbool a.deleteOnTermination | none => Value.vbool false),
   ("tags", Value.vdict volume.tags)]

/-- Embedding of `get_associated_volumes`: first component is the
returned list, second the error messages printed. -/
def get_associated_volumes (p : Provider) (instance_id : String) :
    List Resource × List String :=
  match p.describeVolumes instance_id with
  | Except.ok vols => (vols.map (volume_info instance_id), [])
  | Except.error e => ([], ["Error retrieving volumes: " ++ e.message])

/-- Network interface record built inside
`get_associated_network_interfaces`. -/
def eni_info (eni : RawENI) : Resource :=
  [("resource_type", Value.vstr "Network Interface"),
   ("resource_id", Value.vstr eni.networkInterfaceId),
   ("interface_type", strOrD "interface" eni.interfaceType),
   ("status", Value.vstr eni.status),
   ("subnet_id", Value.vstr eni.subnetId),
   ("vpc_id", Value.vstr eni.vpcId),
   ("private_ip", optStr eni.privateIpAddress),
   ("public_ip", optStr eni.associationPublicIp),
   ("security_groups", Value.vlist eni.groups),
   ("source_dest_check", optBool eni.sourceDestCheck),
   ("tags", Value.vdict eni.tagSet)]

/-- Embedding of `get_associated_network_interfaces`. -/
def get_associated_network_interfaces (p : Provider) (instance_id : String) :
    List Resource × List String :=
  match p.describeNetworkInterfaces instance_id with
  | Except.ok enis => (enis.map eni_info, [])
  | Except.error e => ([], ["Error retrieving network interfaces: " ++ e.message])

/-- Snapshot record built inside `get_associated_snapshots`. -/
def snapshot_info (snapshot : RawSnapshot) : Resource :=
  [("resource_type", Value.vstr "EBS Snapshot"),
   ("resource_id", Value.vstr snapshot.snapshotId),
   ("volume_id", Value.vstr snapshot.volumeId),
   ("volume_size_gb", Value.vnat snapshot.volumeSize),
   ("state", Value.vstr snapshot.state),
   ("progress", strOrD "N/A" snapshot.progress),
   ("start_time", Value.vstr snapshot.startTime),
   ("description", strOrD "" snapshot.description),
   ("encrypted", Value.vbool snapshot.encrypted),
   ("tags", Value.vdict snapshot.tags)]

/-- String content of a `Value`; the source only applies this to values
that are strings (it reads `vol["resource_id"]`, always a string). -/
def valueStr : Value → String
  | Value.vstr s => s
  | _ => ""

/-- Volume ids recomputed inside `get_associated_snapshots` (the source
calls `get_associated_volumes` again and projects `resource_id`). -/
def snapshot_volume_ids (p : Provider) (instance_id : String) : List String :=
  (get_associated_volumes p instance_id).1.map
    (fun vol => valueStr ((vol.lookup "resource_id").getD Value.vnone))

/-- Embedding of `get_associated_snapshots`: re-queries the volumes, and
returns empty without touching the snapshot endpoint when no volume ids
were found. -/
def get_associated_snapshots (p : Provider) (instance_id : String) :
    List Resource × List String :=
  let volsOut := get_associated_volumes p instance_id
  let volume_ids := snapshot_volume_ids p instance_id
  if volume_ids.isEmpty then ([], volsOut.2)
  else
    match p.describeSnapshots volume_ids with
    | Except.ok snaps => (snaps.map snapshot_info, volsOut.2)
    | Except.error e =>
        ([], volsOut.2 ++ ["Error retrieving snapshots: " ++ e.message])

/-- Image record built inside `get_associated_ami`. -/
def ami_info (ami : RawImage) : Resource :=
  [("resource_type", Value.vstr "AMI"),
   ("resource_id", Value.vstr ami.imageId),
   ("name", strOrD "" ami.name),
   ("description", strOrD "" ami.description),
   ("state", Value.vstr ami.state),
   ("architecture", optStr ami.architecture),
   ("platform", strOrD "Linux" ami.platform),
   ("virtualization_type", optStr ami.virtualizationType),
   ("root_device_type", optStr ami.rootDeviceType),
   ("creation_date", strOrD "" ami.creationDate),
   ("public", boolOrFalse ami.public),
   ("tags", Value.vdict ami.tags)]

/-- Embedding of `get_associated_ami`: loads the instance (a client
error here is caught like any other), then, when the image id is truthy,
queries the image. -/
def get_associated_ami (p : Provider) (instance_id : String) :
    List Resource × List String :=
  match p.loadInstance instance_id with
  | Except.error e => ([], ["Error retrieving AMI: " ++ e.message])
  | Except.ok inst =>
      match inst.imageId with
      | none => ([], [])
      | some img =>
          if img = "" then ([], [])
          else
            match p.describeImages img with
            | Except.ok images => (images.map ami_info, [])
            | Except.error e => ([], ["Error retrieving AMI: " ++ e.message])

/-- Security group record built inside `get_associated_security_groups`. -/
def sg_info (sg : RawSecurityGroup) : Resource :=
  [("resource_type", Value.vstr "Security Group"),
   ("resource_id", Value.vstr sg.groupId),
   ("name", Value.vstr sg.groupName),
   ("description", Value.vstr sg.description),
   ("vpc_id", optStr sg.vpcId),
   ("inbound_rules", Value.vnat sg.ipPermissions.length),
   ("outbound_rules", Value.vnat sg.ipPermissionsEgress.length),
   ("tags", Value.vdict sg.tags)]

/-- Embedding of `get_associated_security_groups`: reads the group ids
off the instance and fetches details when that list is non-empty. -/
def get_associated_security_groups (p : Provider) (instance_id : String) :
    List Resource × List String :=
  match p.loadInstance instance_id with
  | Except.error e => ([], ["Error retrieving security groups: " ++ e.message])
  | Except.ok inst =>
      let sg_ids := inst.securityGroups
      if sg_ids.isEmpty then ([], [])
      else
        match p.describeSecurityGroups sg_ids with
        | Except.ok sgs => (sgs.map sg_info, [])
        | Except.error e => ([], ["Error retrieving security groups: " ++ e.message])

/-- Elastic IP record built inside `get_associated_elastic_ips`. -/
def eip_info (eip : RawAddress) : Resource :=
  [("resource_type", Value.vstr "Elastic IP"),
   ("resource_id", strOrD "N/A" eip.allocationId),
   ("public_ip", Value.vstr eip.publicIp),
   ("private_ip", optStr eip.privateIpAddress),
   ("domain", strOrD "vpc" eip.domain),
   ("network_interface_id", optStr eip.networkInterfaceId),
   ("association_id", optStr eip.associationId),
   ("tags", Value.vdict eip.tags)]

/-- Embedding of `get_associated_elastic_ips`. -/
def get_associated_elastic_ips (p : Provider) (instance_id : String) :
    List Resource × List String :=
  match p.describeAddresses instance_id with
  | Except.ok eips => (eips.map eip_info, [])
  | Except.error e => ([], ["Error retrieving Elastic IPs: " ++ e.message])

/-- Summary dict of `discover_all_resources`. -/
structure Summary where
  total_resources : Nat
  volumes : Nat
  network_interfaces : Nat
  snapshots : Nat
  amis : Nat
  security_groups : Nat
  elastic_ips : Nat
deriving DecidableEq, Repr, Inhabited

/-- Aggregate result of `discover_all_resources`. -/
structure DiscoveryResult where
  instance_details : InstanceDetails
  resources : List Resource
  summary : Summary
deriving DecidableEq, Repr, Inhabited

/-- Instance record placed first in the resource list by
`discover_all_resources`. -/
def instance_resource (instance_id : String) (d : InstanceDetails) : Resource :=
  [("resource_type", Value.vstr "EC2 Instance"),
   ("resource_id", Value.vstr instance_id),
   ("instance_type", Value.vstr d.instance_type),
   ("state", Value.vstr d.state),
   ("availability_zone", Value.vstr d.availability_zone),
   ("vpc_id", optStr d.vpc_id),
   ("private_ip", optStr d.private_ip),
   ("public_ip", optStr d.public_ip),
   ("tags", Value.vdict d.tags)]

/-- Embedding of `discover_all_resources`: both the `ValueError` from a
not-found instance and any other exception out of the details fetch are
caught and turn into `None`. -/
def discover_all_resources (p : Provider) (instance_id : String) :
    Option DiscoveryResult :=
  match get_instance_details p instance_id with
  | Except.error _ => none
  | Except.ok instance_details =>
      let inst_res := instance_resource instance_id instance_details
      let volumes := (get_associated_volumes p instance_id).1
      let network_interfaces := (get_associated_network_interfaces p instance_id).1
      let snapshots := (get_associated_snapshots p instance_id).1
      let amis := (get_associated_ami p instance_id).1
      let security_groups := (get_associated_security_groups p instance_id).1
      let elastic_ips := (get_associated_elastic_ips p instance_id).1
      let all_resources := inst_res ::
        (volumes ++ network_interfaces ++ snapshots ++ amis ++ security_groups ++ elastic_ips)
      some
        { instance_details := instance_details
          resources := all_resources
          summary :=
            { total_resources := all_resources.length
              volumes := volumes.length
              network_interfaces := network_interfaces.length
              snapshots := snapshots.length
              amis := amis.length
              security_groups := security_groups.length
              elastic_ips := elastic_ips.length } }

/-! Embedding of `table_formatter.py` (`ResourceTableFormatter`).  The
external `tabulate`/pandas collaborator is abstracted as a function from
a list of rows (each an ordered column-to-value dict) and a table-format
string to the rendered string. -/

/-- Row type handed to the tabulate collaborator. -/
abbrev Row := List (String × Value)

/-- Abstract tabulate collaborator. -/
abbrev TabulateFn := List Row → String → String

/-- Embedding of `resource.get(key, default)`. -/
def rgetD (r : Resource) (k : String) (d : Value) : Value :=
  (r.lookup k).getD d

/-- Shorthand for the `"N/A"` placeholder. -/
def NA : Value := Value.vstr "N/A"

/-- Tag mapping read off a record, `resource.get("tags", {})`. -/
def tagsOf (r : Resource) : Tags :=
  match r.lookup "tags" with
  | some (Value.vdict xs) => xs
  | _ => []

/-- String-list read off a record, `resource.get(key, [])`. -/
def listOf (r : Resource) (k : String) : List String :=
  match r.lookup k with
  | some (Value.vlist xs) => xs
  | _ => []

/-- Python quote around a string as it appears in `str` of a container
(the quote character is written by code point to keep the file ASCII-clean). -/
def pyQuote (s : String) : String := "\x27" ++ s ++ "\x27"

/-- Python `str` of a value as the formatter passes it around: scalars
print plainly, containers print in Python literal style. -/
def pyStr : Value → String
  | Value.vnone => "None"
  | Value.vstr s => s
  | Value.vnat n => toString n
  | Value.vbool b => if b then "True" else "False"
  | Value.vlist xs => "[" ++ String.intercalate ", " (xs.map pyQuote) ++ "]"
  | Value.vdict xs =>
      "\x7b" ++
        String.intercalate ", " (xs.map (fun kv => pyQuote kv.1 ++ ": " ++ pyQuote kv.2)) ++
      "\x7d"

/-- Truthiness test of a container value (`if value:` on a list/dict). -/
def containerNonEmpty : Value → Bool
  | Value.vlist xs => !xs.isEmpty
  | Value.vdict xs => !xs.isEmpty
  | _ => false

/-- Test for container values (`isinstance(value, (list, dict))`). -/
def isContainer : Value → Bool
  | Value.vlist _ => true
  | Value.vdict _ => true
  | _ => false

/-- Embedding of `_format_resource_details`: the first three fields
outside the skip set that are neither `None` nor `"N/A"`, rendered as
`key: value`, containers truncated to 50 characters with an ellipsis. -/
def format_resource_details (resource : Resource) : String :=
  let skip_fields := ["resource_type", "resource_id", "tags"]
  let details := resource.foldl
    (fun acc kv =>
      if skip_fields.contains kv.1 then acc
      else if kv.2 = Value.vnone then acc
      else if kv.2 = Value.vstr "N/A" then acc
      else if isContainer kv.2 then
        if containerNonEmpty kv.2 then
          acc ++ [kv.1 ++ ": " ++ (pyStr kv.2).take 50 ++ "..."]
        else acc
      else acc ++ [kv.1 ++ ": " ++ pyStr kv.2])
    []
  String.intercalate "; " (details.take 3)

/-- Embedding of `_format_tags`: `None` for an empty mapping, otherwise
the first two `key:value` pairs comma-joined, with a `(+N more)` suffix
when more than two tags exist. -/
def format_tags (tags : Tags) : String :=
  if tags.isEmpty then "None"
  else
    let tag_strings := (tags.take 2).map (fun kv => kv.1 ++ ":" ++ kv.2)
    let result := String.intercalate ", " tag_strings
    if tags.length > 2 then
      result ++ " (+" ++ toString (tags.length - 2) ++ " more)"
    else result

/-- Row built by `format_resources_table` for one resource. -/
def flat_row (resource : Resource) : Row :=
  [("Resource Type", rgetD resource "resource_type" (Value.vstr "Unknown")),
   ("Resource ID", rgetD resource "resource_id" NA),
   ("Details", Value.vstr (format_resource_details resource))]

/-- Embedding of `format_resources_table`. -/
def format_resources_table (tabulate : TabulateFn) (resources : List Resource)
    (table_format : String) : String :=
  if resources.isEmpty then "No resources found."
  else tabulate (resources.map flat_row) table_format

/-- Group key used by `format_detailed_resources_table`:
`resource.get("resource_type", "Unknown")` as a dictionary key. -/
def groupKey (r : Resource) : String :=
  match r.lookup "resource_type" with
  | some v => pyStr v
  | none => "Unknown"

/-- Insert a resource into the ordered group list, appending to its
type's bucket or creating a new bucket at the end (Python dict of lists
in first-seen key order). -/
def addToGroup (acc : List (String × List Resource)) (rt : String) (r : Resource) :
    List (String × List Resource) :=
  match acc with
  | [] => [(rt, [r])]
  | (k, rs) :: rest =>
      if k = rt then (k, rs ++ [r]) :: rest
      else (k, rs) :: addToGroup rest rt r

/-- Grouping of resources by type in first-seen order. -/
def resource_groups (resources : List Resource) : List (String × List Resource) :=
  resources.foldl (fun acc r => addToGroup acc (groupKey r) r) []

/-- Row built by `_format_ec2_instances_table`. -/
def ec2_instance_row (inst : Resource) : Row :=
  [("Instance ID", rgetD inst "resource_id" NA),
   ("Instance Type", rgetD inst "instance_type" NA),
   ("State", rgetD inst "state" NA),
   ("AZ", rgetD inst "availability_zone" NA),
   ("VPC ID", rgetD inst "vpc_id" NA),
   ("Private IP", rgetD inst "private_ip" NA),
   ("Public IP", rgetD inst "public_ip" NA),
   ("Tags", Value.vstr (format_tags (tagsOf inst)))]

/-- Row built by `_format_volumes_table`. -/
def volume_row (volume : Resource) : Row :=
  [("Volume ID", rgetD volume "resource_id" NA),
   ("Size (GB)", rgetD volume "size_gb" NA),
   ("Type", rgetD volume "volume_type" NA),
   ("State", rgetD volume "state" NA),
   ("Device", rgetD volume "device" NA),
   ("Encrypted", rgetD volume "encrypted" NA),
   ("IOPS", rgetD volume "iops" NA),
   ("Delete on Term", rgetD volume "delete_on_termination" NA),
   ("Tags", Value.vstr (format_tags (tagsOf volume)))]

/-- Row built by `_format_network_interfaces_table`. -/
def eni_row (interface : Resource) : Row :=
  [("Interface ID", rgetD interface "resource_id" NA),
   ("Type", rgetD interface "interface_type" NA),
   ("Status", rgetD interface "status" NA),
   ("Subnet ID", rgetD interface "subnet_id" NA),
   ("Private IP", rgetD interface "private_ip" NA),
   ("Public IP", rgetD interface "public_ip" NA),
   ("Security Groups", Value.vstr (String.intercalate ", " (listOf interface "security_groups"))),
   ("Tags", Value.vstr (format_tags (tagsOf interface)))]

/-- String read off a record with a default, coerced through `pyStr`
exactly where the source reads a string-typed field. -/
def strGetD (r : Resource) (k : String) (d : String) : String :=
  match r.lookup k with
  | some (Value.vstr s) => s
  | some v => pyStr v
  | none => d

/-- Truthy string read (`if snapshot.get(key):`): present, string, and
non-empty. -/
def truthyStrGet (r : Resource) (k : String) : Option String :=
  match r.lookup k with
  | some (Value.vstr s) => if s = "" then none else some s
  | _ => none

/-- Row built by `_format_snapshots_table`, with the 19-character start
time prefix and 30-character description truncation. -/
def snapshot_row (snapshot : Resource) : Row :=
  [("Snapshot ID", rgetD snapshot "resource_id" NA),
   ("Volume ID", rgetD snapshot "volume_id" NA),
   ("Size (GB)", rgetD snapshot "volume_size_gb" NA),
   ("State", rgetD snapshot "state" NA),
   ("Progress", rgetD snapshot "progress" NA),
   ("Start Time",
     match truthyStrGet snapshot "start_time" with
     | some s => Value.vstr (s.take 19)
     | none => NA),
   ("Encrypted", rgetD snapshot "encrypted" NA),
   ("Description",
     if (strGetD snapshot "description" "").length > 30 then
       Value.vstr ((strGetD snapshot "description" "N/A").take 30 ++ "...")
     else Value.vstr (strGetD snapshot "description" "N/A")),
   ("Tags", Value.vstr (format_tags (tagsOf snapshot)))]

/-- Row built by `_format_amis_table`, with 30-character name truncation
and the 10-character creation-date prefix. -/
def ami_row (ami : Resource) : Row :=
  [("AMI ID", rgetD ami "resource_id" NA),
   ("Name",
     if (strGetD ami "name" "").length > 30 then
       Value.vstr ((strGetD ami "name" "N/A").take 30 ++ "...")
     else Value.vstr (strGetD ami "name" "N/A")),
   ("State", rgetD ami "state" NA),
   ("Architecture", rgetD ami "architecture" NA),
   ("Platform", rgetD ami "platform" NA),
   ("Virtualization", rgetD ami "virtualization_type" NA),
   ("Root Device", rgetD ami "root_device_type" NA),
   ("Public", rgetD ami "public" NA),
   ("Creation Date",
     match truthyStrGet ami "creation_date" with
     | some s => Value.vstr (s.take 10)
     | none => NA),
   ("Tags", Value.vstr (format_tags (tagsOf ami)))]

/-- Row built by `_format_security_groups_table`, with 40-character
description truncation. -/
def sg_row (sg : Resource) : Row :=
  [("Security Group ID", rgetD sg "resource_id" NA),
   ("Name", rgetD sg "name" NA),
   ("Description",
     if (strGetD sg "description" "").length > 40 then
       Value.vstr ((strGetD sg "description" "N/A").take 40 ++ "...")
     else Value.vstr (strGetD sg "description" "N/A")),
   ("VPC ID", rgetD sg "vpc_id" NA),
   ("Inbound Rules", rgetD sg "inbound_rules" NA),
   ("Outbound Rules", rgetD sg "outbound_rules" NA),
   ("Tags", Value.vstr (format_tags (tagsOf sg)))]

/-- Row built by `_format_elastic_ips_table`. -/
def eip_row (eip : Resource) : Row :=
  [("Allocation ID", rgetD eip "resource_id" NA),
   ("Public IP", rgetD eip "public_ip" NA),
   ("Private IP", rgetD eip "private_ip" NA),
   ("Domain", rgetD eip "domain" NA),
   ("Network Interface", rgetD eip "network_interface_id" NA),
   ("Association ID", rgetD eip "association_id" NA),
   ("Tags", Value.vstr (format_tags (tagsOf eip)))]

/-- Row built by `_format_generic_table` for unrecognized types. -/
def generic_row (resource : Resource) : Row :=
  [("Resource ID", rgetD resource "resource_id" NA),
   ("Details", Value.vstr (format_resource_details resource))]

/-- Per-type table dispatch of `format_detailed_resources_table`. -/
def type_table (tabulate : TabulateFn) (resource_type : String)
    (resource_list : List Resource) (table_format : String) : String :=
  if resource_type = "EC2 Instance" then
    tabulate (resource_list.map ec2_instance_row) table_format
  else if resource_type = "EBS Volume" then
    tabulate (resource_list.map volume_row) table_format
  else if resource_type = "Network Interface" then
    tabulate (resource_list.map eni_row) table_format
  else if resource_type = "EBS Snapshot" then
    tabulate (resource_list.map snapshot_row) table_format
  else if resource_type = "AMI" then
    tabulate (resource_list.map ami_row) table_format
  else if resource_type = "Security Group" then
    tabulate (resource_list.map sg_row) table_format
  else if resource_type = "Elastic IP" then
    tabulate (resource_list.map eip_row) table_format
  else
    tabulate (resource_list.map generic_row) table_format

/-- Embedding of `format_detailed_resources_table`: groups by type and
emits a heading plus table per group, all newline-joined. -/
def format_detailed_resources_table (tabulate : TabulateFn)
    (resources : List Resource) (table_format : String) : String :=
  if resources.isEmpty then "No resources found."
  else
    let groups := resource_groups resources
    let formatted_tables := groups.foldl
      (fun acc g =>
        acc ++ ["\n## " ++ g.1 ++ "s\n", type_table tabulate g.1 g.2 table_format])
      []
    String.intercalate "\n" formatted_tables

/-- Flattening of one record entry inside `export_to_csv`: a mapping
value spreads into `parentKey_subKey` columns, a sequence value becomes
one comma-joined column, a scalar passes through. -/
def flatten_entry (kv : String × Value) : List (String × Value) :=
  match kv.2 with
  | Value.vdict xs => xs.map (fun sub => (kv.1 ++ "_" ++ sub.1, Value.vstr sub.2))
  | Value.vlist xs => [(kv.1, Value.vstr (String.intercalate ", " xs))]
  | v => [(kv.1, v)]

/-- Flattened row of one resource in `export_to_csv`. -/
def flatten_resource (resource : Resource) : List (String × Value) :=
  resource.flatMap flatten_entry

/-- First-seen-order union of a key list (pandas column union over the
flattened rows). -/
def unionKeys (ks : List String) : List String :=
  ks.foldl (fun acc k => if acc.contains k then acc else acc ++ [k]) []

/-- CSV header derived by pandas from the flattened rows: the union of
all flattened keys in first-seen order. -/
def csv_header (resources : List Resource) : List String :=
  unionKeys (resources.flatMap (fun r => (flatten_resource r).map Prod.fst))

/-! Embedding of the CLI validation in `aws_ec2_resource_discovery.py`
(`main`, lines 89-93): the format check runs before any AWS session or
network call is made. -/

/-- The format test the source applies:
`args.instance_id.startswith("i-") and len(args.instance_id) == 19`,
embedded over the character list of the argument. -/
def validate_instance_id (instance_id : String) : Bool :=
  List.isPrefixOf "i-".toList instance_id.toList && instance_id.toList.length == 19

/-- Outcome of the pre-network CLI validation step. -/
inductive CliAction where
  | formatError : CliAction
  | proceed : CliAction
deriving DecidableEq, Repr

/-- Embedding of the validation branch of `main`: on a failed format
test the tool prints the format error and exits nonzero before any
network call; otherwise it proceeds to discovery. -/
def cli_validate (instance_id : String) : CliAction :=
  if validate_instance_id instance_id then CliAction.proceed
  else CliAction.formatError

/-- Modelled from the spec: the instance-id pattern the specification
prescribes for the command-line surface, `i-` followed by 17 hexadecimal
characters (exactly 19 characters total). -/
def spec_instance_id_pattern (instance_id : String) : Bool :=
  List.isPrefixOf "i-".toList instance_id.toList && instance_id.toList.length == 19 &&
    (instance_id.toList.drop 2).all (fun c =>
      c.isDigit || ( 'a' ≤ c && c ≤ 'f' ) || ( 'A' ≤ c && c ≤ 'F' ))

/-! Concrete fixtures used by the witnesses: a provider with one
resource of each kind, mirroring the mock data of `test_solution.py`. -/

/-- Instance id used by the fixtures. -/
def sampleId : String := "i-0123456789abcdef0"

/-- Sample raw instance. -/
def sampleInstance : RawInstance :=
  { id := sampleId
    instanceType := "t3.micro"
    stateName := "running"
    launchTime := some "2024-06-20T10:00:00+00:00"
    availabilityZone := "us-east-1a"
    vpcId := some "vpc-12345678"
    subnetId := some "subnet-12345678"
    privateIpAddress := some "10.0.1.100"
    publicIpAddress := some "54.123.45.67"
    imageId := some "ami-1234567890abcdef0"
    keyName := some "mykey"
    securityGroups := ["sg-12345678"]
    tags := [("Name", "WebServer")] }

/-- Sample raw volume attached to the sample instance. -/
def sampleVolume : RawVolume :=
  { volumeId := "vol-1234567890abcdef0"
    size := 20
    volumeType := "gp3"
    state := "in-use"
    encrypted := true
    iops := some 3000
    throughput := some 125
    attachments := [{ instanceId := sampleId, device := "/dev/sda1", deleteOnTermination := true }]
    tags := [("Name", "RootVolume")] }

/-- Sample raw network interface. -/
def sampleENI : RawENI :=
  { networkInterfaceId := "eni-1234567890abcdef0"
    interfaceType := some "interface"
    status := "in-use"
    subnetId := "subnet-12345678"
    vpcId := "vpc-12345678"
    privateIpAddress := some "10.0.1.100"
    associationPublicIp := some "54.123.45.67"
    groups := ["sg-12345678"]
    sourceDestCheck := some true
    tagSet := [("Name", "Primary-ENI")] }

/-- Sample raw snapshot of the sample volume. -/
def sampleSnapshot : RawSnapshot :=
  { snapshotId := "snap-1234567890abcdef0"
    volumeId := "vol-1234567890abcdef0"
    volumeSize := 20
    state := "completed"
    progress := some "100%"
    startTime := "2024-06-20T10:30:00+00:00"
    description := some "Automated backup of root volume"
    encrypted := true
    tags := [("Name", "RootVolume-Backup")] }

/-- Sample raw image. -/
def sampleImage : RawImage :=
  { imageId := "ami-1234567890abcdef0"
    name := some "ubuntu-jammy"
    description := some "Ubuntu 22.04"
    state := "available"
    architecture := some "x86_64"
    platform := some "Linux"
    virtualizationType := some "hvm"
    rootDeviceType := some "ebs"
    creationDate := some "2024-03-01T00:00:00.000Z"
    public := some true
    tags := [] }

/-- Sample raw security group. -/
def sampleSG : RawSecurityGroup :=
  { groupId := "sg-12345678"
    groupName := "web-server-sg"
    description := "Security group for web server"
    vpcId := some "vpc-12345678"
    ipPermissions := ["rule-http", "rule-https"]
    ipPermissionsEgress := ["rule-all-out"]
    tags := [("Name", "WebServer-SG")] }

/-- Sample raw elastic IP. -/
def sampleAddress : RawAddress :=
  { allocationId := some "eipalloc-1234567890abcdef0"
    publicIp := "54.123.45.67"
    privateIpAddress := some "10.0.1.100"
    domain := some "vpc"
    networkInterfaceId := some "eni-1234567890abcdef0"
    associationId := some "eipassoc-1234567890abcdef0"
    tags := [] }

/-- Sample provider: every query succeeds, and only the fixture instance
exists. -/
def sampleProvider : Provider :=
  { loadInstance := fun s =>
      if s = sampleId then Except.ok sampleInstance
      else Except.error { code := "InvalidInstanceID.NotFound", message := "not found" }
    describeVolumes := fun _ => Except.ok [sampleVolume]
    describeNetworkInterfaces := fun _ => Except.ok [sampleENI]
    describeSnapshots := fun _ => Except.ok [sampleSnapshot]
    describeImages := fun _ => Except.ok [sampleImage]
    describeSecurityGroups := fun _ => Except.ok [sampleSG]
    describeAddresses := fun _ => Except.ok [sampleAddress] }

/-- Sample discovery result produced by the sample provider. -/
def sampleResult : DiscoveryResult :=
  (discover_all_resources sampleProvider sampleId).getD default

/-- C2: for every DiscoveryResult returned by discover_all_resources,
the summary's total_resources entry equals the length of the resources
list. -/
theorem claim_C2_total_resources (p : Provider) (instance_id : String)
    (r : DiscoveryResult)
    (h : discover_all_resources p instance_id = some r) :
    r.summary.total_resources = r.resources.length := by
  unfold discover_all_resources at h
  split at h
  · exact absurd h (by simp)
  · simp only [Option.some.injEq] at h
    subst h
    rfl

/-- Witness for C2 at the sample provider. -/
theorem claim_C2_total_resources_witness :
    discover_all_resources sampleProvider sampleId = some sampleResult ∧
    sampleResult.summary.total_resources = sampleResult.resources.length :=
  ⟨rfl, claim_C2_total_resources sampleProvider sampleId sampleResult rfl⟩

/-- C8: an empty tag mapping renders as the literal None; a non-empty
mapping renders as its first two key:value pairs comma-joined, with a
(+N more) suffix exactly when more than two entries exist, N being the
entry count minus two; the three-tag example renders as stated. -/
theorem claim_C8_format_tags (tags : Tags) :
    format_tags tags =
      (if tags.isEmpty then "None"
       else if tags.length > 2 then
         String.intercalate ", " ((tags.take 2).map (fun kv => kv.1 ++ ":" ++ kv.2)) ++
           " (+" ++ toString (tags.length - 2) ++ " more)"
       else
         String.intercalate ", " ((tags.take 2).map (fun kv => kv.1 ++ ":" ++ kv.2))) ∧
    format_tags [("Name", "WebServer"), ("Environment", "Production"), ("Owner", "DevTeam")] =
      "Name:WebServer, Environment:Production (+1 more)" := by
  constructor
  · unfold format_tags
    split
    · rfl
    · split
      · rfl
      · rfl
  · rfl

/-- C10: on an empty resource list both renderers return the
"No resources found." string for every tabulate collaborator and table
format. -/
theorem claim_C10_empty_renders (tabulate : TabulateFn) (table_format : String) :
    format_resources_table tabulate [] table_format = "No resources found." ∧
    format_detailed_resources_table tabulate [] table_format = "No resources found." :=
  ⟨rfl, rfl⟩

/-- C4 counterexample: the argument i-zzzzzzzzzzzzzzzzz does not match
the spec pattern (its trailing characters are not hexadecimal), yet the
source's validation accepts it and proceeds to discovery instead of
reporting a format error. -/
theorem claim_C4_counterexample :
    spec_instance_id_pattern "i-zzzzzzzzzzzzzzzzz" = false ∧
    validate_instance_id "i-zzzzzzzzzzzzzzzzz" = true ∧
    cli_validate "i-zzzzzzzzzzzzzzzzz" = CliAction.proceed := by
  refine ⟨by decide, by decide, by decide⟩

/-- C4 amended: the CLI rejects (format error, nonzero exit, before any
network call) exactly the arguments that do not start with the two
characters i- or whose length differs from 19; hexadecimality of the
trailing 17 characters is not checked. -/
theorem claim_C4_rejects_short_or_unprefixed (instance_id : String) :
    cli_validate instance_id = CliAction.formatError ↔
      ¬ ([ 'i', '-' ] <+: instance_id.toList ∧ instance_id.toList.length = 19) := by
  have hil : "i-".toList = [ 'i', '-' ] := rfl
  have hpre : (List.isPrefixOf "i-".toList instance_id.toList = true) ↔
      [ 'i', '-' ] <+: instance_id.toList := by
    rw [List.isPrefixOf_iff_prefix, hil]
  unfold cli_validate validate_instance_id
  split
  · rename_i hv
    simp only [Bool.and_eq_true, beq_iff_eq] at hv
    simp only [hpre] at hv
    constructor
    · intro hc; exact absurd hc (by simp)
    · intro hc; exact absurd ⟨hv.1, hv.2⟩ hc
  · rename_i hv
    simp only [Bool.and_eq_true, beq_iff_eq, not_and] at hv
    constructor
    · intro _
      intro hc
      exact hv (hpre.mpr hc.1) hc.2
    · intro _; rfl

/-- Client error used by the failure fixtures. -/
def failingError : ClientError := { code := "AccessDenied", message := "access denied" }

/-- Provider whose instance load succeeds but every describe query
raises a client error. -/
def errProvider : Provider :=
  { loadInstance := fun _ => Except.ok sampleInstance
    describeVolumes := fun _ => Except.error failingError
    describeNetworkInterfaces := fun _ => Except.error failingError
    describeSnapshots := fun _ => Except.error failingError
    describeImages := fun _ => Except.error failingError
    describeSecurityGroups := fun _ => Except.error failingError
    describeAddresses := fun _ => Except.error failingError }

/-- Sample provider variant whose snapshot query alone fails. -/
def snapErrProvider : Provider :=
  { sampleProvider with describeSnapshots := fun _ => Except.error failingError }

/-- Sample provider variant reporting no attached volumes. -/
def noVolumeProvider : Provider :=
  { sampleProvider with describeVolumes := fun _ => Except.ok [] }

/-- Variant of the no-volume provider whose snapshot endpoint would
fail if it were ever queried. -/
def noVolumeProviderB : Provider :=
  { noVolumeProvider with describeSnapshots := fun _ => Except.error failingError }

/-- Provider whose instance load fails with a non-not-found error. -/
def throttledProvider : Provider :=
  { sampleProvider with
    loadInstance := fun _ =>
      Except.error { code := "RequestLimitExceeded", message := "Request limit exceeded." } }

/-- C7: when the volume lookup yields an empty list, the snapshot
collector returns an empty sequence, and its entire output is unchanged
under any replacement of the snapshot endpoint (so no snapshot query is
issued). -/
theorem claim_C7_no_snapshot_query (p q : Provider) (instance_id : String)
    (hagree : ∀ s, q.describeVolumes s = p.describeVolumes s)
    (hempty : (get_associated_volumes p instance_id).1 = []) :
    (get_associated_snapshots p instance_id).1 = [] ∧
    get_associated_snapshots q instance_id = get_associated_snapshots p instance_id := by
  have hq : ∀ s, get_associated_volumes q s = get_associated_volumes p s := by
    intro s
    unfold get_associated_volumes
    rw [hagree]
  have hidq : ∀ s, snapshot_volume_ids q s = snapshot_volume_ids p s := by
    intro s
    unfold snapshot_volume_ids
    rw [hq]
  constructor
  · unfold get_associated_snapshots snapshot_volume_ids
    rw [hempty]
    rfl
  · unfold get_associated_snapshots
    rw [hidq, hq]
    unfold snapshot_volume_ids
    rw [hempty]
    rfl

/-- Witness for C7: a provider with no attached volumes, against a
variant whose snapshot endpoint always fails. -/
theorem claim_C7_no_snapshot_query_witness :
    (get_associated_snapshots noVolumeProvider sampleId).1 = [] ∧
    get_associated_snapshots noVolumeProviderB sampleId =
      get_associated_snapshots noVolumeProvider sampleId :=
  claim_C7_no_snapshot_query noVolumeProvider noVolumeProviderB sampleId
    (fun _ => rfl) rfl

/-- C6: each of the six collectors catches a client error raised by its
provider query, reports it on the error channel, and returns the empty
sequence instead of propagating. -/
theorem claim_C6_collectors_soft_fail (p : Provider) (instance_id : String) (e : ClientError) :
    (p.describeVolumes instance_id = Except.error e →
      get_associated_volumes p instance_id =
        ([], ["Error retrieving volumes: " ++ e.message])) ∧
    (p.describeNetworkInterfaces instance_id = Except.error e →
      get_associated_network_interfaces p instance_id =
        ([], ["Error retrieving network interfaces: " ++ e.message])) ∧
    (snapshot_volume_ids p instance_id ≠ [] →
      p.describeSnapshots (snapshot_volume_ids p instance_id) = Except.error e →
      get_associated_snapshots p instance_id =
        ([], (get_associated_volumes p instance_id).2 ++
          ["Error retrieving snapshots: " ++ e.message])) ∧
    (∀ inst img, p.loadInstance instance_id = Except.ok inst →
      inst.imageId = some img → img ≠ "" →
      p.describeImages img = Except.error e →
      get_associated_ami p instance_id = ([], ["Error retrieving AMI: " ++ e.message])) ∧
    (∀ inst, p.loadInstance instance_id = Except.ok inst →
      inst.securityGroups ≠ [] →
      p.describeSecurityGroups inst.securityGroups = Except.error e →
      get_associated_security_groups p instance_id =
        ([], ["Error retrieving security groups: " ++ e.message])) ∧
    (p.describeAddresses instance_id = Except.error e →
      get_associated_elastic_ips p instance_id =
        ([], ["Error retrieving Elastic IPs: " ++ e.message])) := by
  refine ⟨?_, ?_, ?_, ?_, ?_, ?_⟩
  · intro h
    unfold get_associated_volumes
    rw [h]
  · intro h
    unfold get_associated_network_interfaces
    rw [h]
  · intro hne h
    have hb : (snapshot_volume_ids p instance_id).isEmpty = false := by
      simp [List.isEmpty_iff, hne]
    simp only [get_associated_snapshots, hb, Bool.false_eq_true, if_false, h]
  · intro inst img hload himg hne h
    simp only [get_associated_ami, hload, himg, if_neg hne, h]
  · intro inst hload hne h
    have hb : inst.securityGroups.isEmpty = false := by
      simp [List.isEmpty_iff, hne]
    simp only [get_associated_security_groups, hload, hb, Bool.false_eq_true, if_false, h]
  · intro h
    unfold get_associated_elastic_ips
    rw [h]

/-- Witness for C6 at the failing fixtures: all six collectors of the
all-errors provider (snapshots via the snapshot-only-failure provider,
which has a volume to query snapshots for) return empty with the
reported message. -/
theorem claim_C6_collectors_soft_fail_witness :
    get_associated_volumes errProvider sampleId =
      ([], ["Error retrieving volumes: access denied"]) ∧
    get_associated_network_interfaces errProvider sampleId =
      ([], ["Error retrieving network interfaces: access denied"]) ∧
    get_associated_snapshots snapErrProvider sampleId =
      ([], ["Error retrieving snapshots: access denied"]) ∧
    get_associated_ami errProvider sampleId =
      ([], ["Error retrieving AMI: access denied"]) ∧
    get_associated_security_groups errProvider sampleId =
      ([], ["Error retrieving security groups: access denied"]) ∧
    get_associated_elastic_ips errProvider sampleId =
      ([], ["Error retrieving Elastic IPs: access denied"]) := by
  refine ⟨?_, ?_, ?_, ?_, ?_, ?_⟩
  · exact (claim_C6_collectors_soft_fail errProvider sampleId failingError).1 rfl
  · exact (claim_C6_collectors_soft_fail errProvider sampleId failingError).2.1 rfl
  · exact (claim_C6_collectors_soft_fail snapErrProvider sampleId failingError).2.2.1
      (by decide) rfl
  · exact (claim_C6_collectors_soft_fail errProvider sampleId failingError).2.2.2.1
      sampleInstance "ami-1234567890abcdef0" rfl rfl (by decide) rfl
  · exact (claim_C6_collectors_soft_fail errProvider sampleId failingError).2.2.2.2.1
      sampleInstance rfl (by decide) rfl
  · exact (claim_C6_collectors_soft_fail errProvider sampleId failingError).2.2.2.2.2 rfl

/-- C5 counterexample: a provider error other than not-found on the
initial instance fetch (here a request-limit error) also makes
discover_all_resources return no result, so not-found is not the only
hard failure. -/
theorem claim_C5_counterexample :
    throttledProvider.loadInstance sampleId =
      Except.error { code := "RequestLimitExceeded", message := "Request limit exceeded." } ∧
    ("RequestLimitExceeded" ≠ "InvalidInstanceID.NotFound") ∧
    discover_all_resources throttledProvider sampleId = none :=
  ⟨rfl, by decide, rfl⟩

/-- C5 amended: discovery fails exactly when the initial instance fetch
fails (not-found, or any other provider error there); provider errors
inside the six collectors are absorbed — even with every collector
query failing, discovery succeeds and returns only the instance record
with all per-kind counts zero. -/
theorem claim_C5_hard_failure (p : Provider) (instance_id : String) :
    ((discover_all_resources p instance_id = none) ↔
      ∃ e, p.loadInstance instance_id = Except.error e) ∧
    (∀ inst, p.loadInstance instance_id = Except.ok inst →
      (∃ e, p.describeVolumes instance_id = Except.error e) →
      (∃ e, p.describeNetworkInterfaces instance_id = Except.error e) →
      (∀ img, ∃ e, p.describeImages img = Except.error e) →
      (∀ ids, ∃ e, p.describeSecurityGroups ids = Except.error e) →
      (∃ e, p.describeAddresses instance_id = Except.error e) →
      ∃ d, get_instance_details p instance_id = Except.ok d ∧
        discover_all_resources p instance_id = some
          { instance_details := d
            resources := [instance_resource instance_id d]
            summary :=
              { total_resources := 1, volumes := 0, network_interfaces := 0,
                snapshots := 0, amis := 0, security_groups := 0, elastic_ips := 0 } }) := by
  constructor
  · constructor
    · intro h
      unfold discover_all_resources at h
      cases hload : p.loadInstance instance_id with
      | error e => exact ⟨e, rfl⟩
      | ok inst =>
          have hd : get_instance_details p instance_id = Except.ok
              { instance_id := inst.id, instance_type := inst.instanceType,
                state := inst.stateName, launch_time := inst.launchTime,
                availability_zone := inst.availabilityZone, vpc_id := inst.vpcId,
                subnet_id := inst.subnetId, private_ip := inst.privateIpAddress,
                public_ip := inst.publicIpAddress, image_id := inst.imageId,
                key_name := inst.keyName, tags := inst.tags } := by
            unfold get_instance_details
            rw [hload]
          rw [hd] at h
          exact absurd h (by simp)
    · intro ⟨e, he⟩
      simp only [discover_all_resources, get_instance_details, he]
      split
      · rfl
      · rename_i d heq
        split at heq <;> simp at heq
  · intro inst hload hv hn hi hs ha
    obtain ⟨e1, hv⟩ := hv
    obtain ⟨e2, hn⟩ := hn
    obtain ⟨e6, ha⟩ := ha
    have hvol : (get_associated_volumes p instance_id).1 = [] := by
      unfold get_associated_volumes
      rw [hv]
    have hni : (get_associated_network_interfaces p instance_id).1 = [] := by
      unfold get_associated_network_interfaces
      rw [hn]
    have hsnap : (get_associated_snapshots p instance_id).1 = [] := by
      simp [get_associated_snapshots, snapshot_volume_ids, hvol]
    have hami : (get_associated_ami p instance_id).1 = [] := by
      simp only [get_associated_ami, hload]
      cases himg : inst.imageId with
      | none => rfl
      | some img =>
          obtain ⟨e4, hi4⟩ := hi img
          simp only [hi4]
          split <;> rfl
    have hsg : (get_associated_security_groups p instance_id).1 = [] := by
      obtain ⟨e5, hs5⟩ := hs inst.securityGroups
      simp only [get_associated_security_groups, hload, hs5]
      split <;> rfl
    have heip : (get_associated_elastic_ips p instance_id).1 = [] := by
      unfold get_associated_elastic_ips
      rw [ha]
    have hd : get_instance_details p instance_id = Except.ok
        { instance_id := inst.id, instance_type := inst.instanceType,
          state := inst.stateName, launch_time := inst.launchTime,
          availability_zone := inst.availabilityZone, vpc_id := inst.vpcId,
          subnet_id := inst.subnetId, private_ip := inst.privateIpAddress,
          public_ip := inst.publicIpAddress, image_id := inst.imageId,
          key_name := inst.keyName, tags := inst.tags } := by
      unfold get_instance_details
      rw [hload]
    refine ⟨_, hd, ?_⟩
    unfold discover_all_resources
    rw [hd]
    simp only [hvol, hni, hsnap, hami, hsg, heip, List.append_nil, List.nil_append,
      List.length_nil, List.length_cons, Nat.zero_add, Option.some.injEq]

/-- Witness for C5 at the fixtures: the throttled provider settles the
equivalence, and the all-errors provider exercises the absorbed-failure
branch. -/
theorem claim_C5_hard_failure_witness :
    ((discover_all_resources throttledProvider sampleId = none) ↔
      ∃ e, throttledProvider.loadInstance sampleId = Except.error e) ∧
    (∃ d, get_instance_details errProvider sampleId = Except.ok d ∧
      discover_all_resources errProvider sampleId = some
        { instance_details := d
          resources := [instance_resource sampleId d]
          summary :=
            { total_resources := 1, volumes := 0, network_interfaces := 0,
              snapshots := 0, amis := 0, security_groups := 0, elastic_ips := 0 } }) := by
  constructor
  · exact (claim_C5_hard_failure throttledProvider sampleId).1
  · exact (claim_C5_hard_failure errProvider sampleId).2 sampleInstance rfl
      ⟨failingError, rfl⟩ ⟨failingError, rfl⟩ (fun _ => ⟨failingError, rfl⟩)
      (fun _ => ⟨failingError, rfl⟩) ⟨failingError, rfl⟩

/-- Number of entries of a resource list whose resource_type field holds
the given type name. -/
def count_type (t : String) (rs : List Resource) : Nat :=
  rs.countP (fun x => decide (x.lookup "resource_type" = some (Value.vstr t)))

/-- Counting over a list all of whose entries carry one fixed type name. -/
theorem count_type_of_forall_eq {t : String} {l : List Resource}
    (h : ∀ x ∈ l, x.lookup "resource_type" = some (Value.vstr t)) (t' : String) :
    count_type t' l = if t' = t then l.length else 0 := by
  by_cases hc : t' = t
  · subst hc
    rw [if_pos rfl]
    exact List.countP_eq_length.mpr (fun x hx => by simp [h x hx])
  · rw [if_neg hc]
    refine List.countP_eq_zero.mpr (fun x hx => ?_)
    simp only [h x hx, decide_eq_true_eq, Option.some.injEq, Value.vstr.injEq]
    exact fun hcontra => hc hcontra.symm

/-- Counting distributes over appended resource lists. -/
theorem count_type_append (t : String) (l m : List Resource) :
    count_type t (l ++ m) = count_type t l + count_type t m :=
  List.countP_append _ _ _

/-- Every record the volume collector emits is typed EBS Volume. -/
theorem volumes_resource_type (p : Provider) (instance_id : String) :
    ∀ x ∈ (get_associated_volumes p instance_id).1,
      x.lookup "resource_type" = some (Value.vstr "EBS Volume") := by
  intro x hx
  simp only [get_associated_volumes] at hx
  split at hx <;> simp at hx
  obtain ⟨a, ha, rfl⟩ := hx
  rfl

/-- Every record the network-interface collector emits is typed
Network Interface. -/
theorem enis_resource_type (p : Provider) (instance_id : String) :
    ∀ x ∈ (get_associated_network_interfaces p instance_id).1,
      x.lookup "resource_type" = some (Value.vstr "Network Interface") := by
  intro x hx
  simp only [get_associated_network_interfaces] at hx
  split at hx <;> simp at hx
  obtain ⟨a, ha, rfl⟩ := hx
  rfl

/-- Every record the snapshot collector emits is typed EBS Snapshot. -/
theorem snapshots_resource_type (p : Provider) (instance_id : String) :
    ∀ x ∈ (get_associated_snapshots p instance_id).1,
      x.lookup "resource_type" = some (Value.vstr "EBS Snapshot") := by
  intro x hx
  simp only [get_associated_snapshots] at hx
  split at hx
  · simp at hx
  · split at hx <;> simp at hx
    obtain ⟨a, ha, rfl⟩ := hx
    rfl

/-- Every record the image collector emits is typed AMI. -/
theorem amis_resource_type (p : Provider) (instance_id : String) :
    ∀ x ∈ (get_associated_ami p instance_id).1,
      x.lookup "resource_type" = some (Value.vstr "AMI") := by
  intro x hx
  simp only [get_associated_ami] at hx
  split at hx
  · simp at hx
  · split at hx
    · simp at hx
    · split at hx
      · simp at hx
      · split at hx <;> simp at hx
        obtain ⟨a, ha, rfl⟩ := hx
        rfl

/-- Every record the security-group collector emits is typed
Security Group. -/
theorem sgs_resource_type (p : Provider) (instance_id : String) :
    ∀ x ∈ (get_associated_security_groups p instance_id).1,
      x.lookup "resource_type" = some (Value.vstr "Security Group") := by
  intro x hx
  simp only [get_associated_security_groups] at hx
  split at hx
  · simp at hx
  · split at hx
    · simp at hx
    · split at hx <;> simp at hx
      obtain ⟨a, ha, rfl⟩ := hx
      rfl

/-- Every record the elastic-IP collector emits is typed Elastic IP. -/
theorem eips_resource_type (p : Provider) (instance_id : String) :
    ∀ x ∈ (get_associated_elastic_ips p instance_id).1,
      x.lookup "resource_type" = some (Value.vstr "Elastic IP") := by
  intro x hx
  simp only [get_associated_elastic_ips] at hx
  split at hx <;> simp at hx
  obtain ⟨a, ha, rfl⟩ := hx
  rfl

/-- Per-type count over the full assembled resource list. -/
theorem count_type_discovered (p : Provider) (instance_id : String)
    (d : InstanceDetails) (t' : String) :
    count_type t' (instance_resource instance_id d ::
      ((get_associated_volumes p instance_id).1 ++
       (get_associated_network_interfaces p instance_id).1 ++
       (get_associated_snapshots p instance_id).1 ++
       (get_associated_ami p instance_id).1 ++
       (get_associated_security_groups p instance_id).1 ++
       (get_associated_elastic_ips p instance_id).1)) =
    (if t' = "EC2 Instance" then 1 else 0) +
    (if t' = "EBS Volume" then (get_associated_volumes p instance_id).1.length else 0) +
    (if t' = "Network Interface" then
      (get_associated_network_interfaces p instance_id).1.length else 0) +
    (if t' = "EBS Snapshot" then (get_associated_snapshots p instance_id).1.length else 0) +
    (if t' = "AMI" then (get_associated_ami p instance_id).1.length else 0) +
    (if t' = "Security Group" then
      (get_associated_security_groups p instance_id).1.length else 0) +
    (if t' = "Elastic IP" then (get_associated_elastic_ips p instance_id).1.length else 0) := by
  have h0 := count_type_of_forall_eq (t := "EC2 Instance")
    (l := [instance_resource instance_id d])
    (fun x hx => by rcases List.mem_singleton.mp hx with rfl; rfl) t'
  have hV := count_type_of_forall_eq (volumes_resource_type p instance_id) t'
  have hN := count_type_of_forall_eq (enis_resource_type p instance_id) t'
  have hS := count_type_of_forall_eq (snapshots_resource_type p instance_id) t'
  have hA := count_type_of_forall_eq (amis_resource_type p instance_id) t'
  have hG := count_type_of_forall_eq (sgs_resource_type p instance_id) t'
  have hE := count_type_of_forall_eq (eips_resource_type p instance_id) t'
  rw [← List.singleton_append, count_type_append, count_type_append, count_type_append,
    count_type_append, count_type_append, count_type_append,
    h0, hV, hN, hS, hA, hG, hE]
  simp only [List.length_singleton]
  ring

/-- C3: in every returned DiscoveryResult the per-kind summary counts
equal the number of resource-list entries carrying that kind's type
name — the instance's own entry, typed EC2 Instance, is counted under
none of the six kinds. -/
theorem claim_C3_per_kind_counts (p : Provider) (instance_id : String)
    (r : DiscoveryResult)
    (h : discover_all_resources p instance_id = some r) :
    r.summary.volumes = count_type "EBS Volume" r.resources ∧
    r.summary.network_interfaces = count_type "Network Interface" r.resources ∧
    r.summary.snapshots = count_type "EBS Snapshot" r.resources ∧
    r.summary.amis = count_type "AMI" r.resources ∧
    r.summary.security_groups = count_type "Security Group" r.resources ∧
    r.summary.elastic_ips = count_type "Elastic IP" r.resources := by
  unfold discover_all_resources at h
  split at h
  · exact absurd h (by simp)
  · rename_i d hd
    simp only [Option.some.injEq] at h
    subst h
    refine ⟨?_, ?_, ?_, ?_, ?_, ?_⟩ <;>
      · rw [count_type_discovered]
        simp

/-- Witness for C3 at the sample provider. -/
theorem claim_C3_per_kind_counts_witness :
    discover_all_resources sampleProvider sampleId = some sampleResult ∧
    (sampleResult.summary.volumes = count_type "EBS Volume" sampleResult.resources ∧
     sampleResult.summary.network_interfaces =
       count_type "Network Interface" sampleResult.resources ∧
     sampleResult.summary.snapshots = count_type "EBS Snapshot" sampleResult.resources ∧
     sampleResult.summary.amis = count_type "AMI" sampleResult.resources ∧
     sampleResult.summary.security_groups =
       count_type "Security Group" sampleResult.resources ∧
     sampleResult.summary.elastic_ips = count_type "Elastic IP" sampleResult.resources) :=
  ⟨rfl, claim_C3_per_kind_counts sampleProvider sampleId sampleResult rfl⟩

/-- Ordering contract of the assembled resource list: instance record
first, then the six collector outputs in the fixed order, each collector
mapping its provider response in order. -/
def ordering_contract (p : Provider) (instance_id : String) (r : DiscoveryResult) : Prop :=
  (∃ d, get_instance_details p instance_id = Except.ok d ∧
    r.resources = instance_resource instance_id d ::
      ((get_associated_volumes p instance_id).1 ++
       (get_associated_network_interfaces p instance_id).1 ++
       (get_associated_snapshots p instance_id).1 ++
       (get_associated_ami p instance_id).1 ++
       (get_associated_security_groups p instance_id).1 ++
       (get_associated_elastic_ips p instance_id).1)) ∧
  (∀ vols, p.describeVolumes instance_id = Except.ok vols →
    (get_associated_volumes p instance_id).1 = vols.map (volume_info instance_id)) ∧
  (∀ enis, p.describeNetworkInterfaces instance_id = Except.ok enis →
    (get_associated_network_interfaces p instance_id).1 = enis.map eni_info) ∧
  (∀ snaps, snapshot_volume_ids p instance_id ≠ [] →
    p.describeSnapshots (snapshot_volume_ids p instance_id) = Except.ok snaps →
    (get_associated_snapshots p instance_id).1 = snaps.map snapshot_info) ∧
  (∀ inst img images, p.loadInstance instance_id = Except.ok inst →
    inst.imageId = some img → img ≠ "" →
    p.describeImages img = Except.ok images →
    (get_associated_ami p instance_id).1 = images.map ami_info) ∧
  (∀ inst sgs, p.loadInstance instance_id = Except.ok inst →
    inst.securityGroups ≠ [] →
    p.describeSecurityGroups inst.securityGroups = Except.ok sgs →
    (get_associated_security_groups p instance_id).1 = sgs.map sg_info) ∧
  (∀ eips, p.describeAddresses instance_id = Except.ok eips →
    (get_associated_elastic_ips p instance_id).1 = eips.map eip_info)

/-- C1: every successful discovery returns the resource list in the
deterministic order instance, volumes, network interfaces, snapshots,
images, security groups, elastic IPs, each kind in provider response
order. -/
theorem claim_C1_resource_ordering (p : Provider) (instance_id : String)
    (r : DiscoveryResult)
    (h : discover_all_resources p instance_id = some r) :
    ordering_contract p instance_id r := by
  refine ⟨?_, ?_, ?_, ?_, ?_, ?_, ?_⟩
  · unfold discover_all_resources at h
    split at h
    · exact absurd h (by simp)
    · rename_i d hd
      simp only [Option.some.injEq] at h
      subst h
      exact ⟨d, hd, rfl⟩
  · intro vols hok
    simp only [get_associated_volumes, hok]
  · intro enis hok
    simp only [get_associated_network_interfaces, hok]
  · intro snaps hne hok
    have hb : (snapshot_volume_ids p instance_id).isEmpty = false := by
      simp [List.isEmpty_iff, hne]
    simp only [get_associated_snapshots, hb, Bool.false_eq_true, if_false, hok]
  · intro inst img images hload himg hne hok
    simp only [get_associated_ami, hload, himg, if_neg hne, hok]
  · intro inst sgs hload hne hok
    have hb : inst.securityGroups.isEmpty = false := by
      simp [List.isEmpty_iff, hne]
    simp only [get_associated_security_groups, hload, hb, Bool.false_eq_true, if_false, hok]
  · intro eips hok
    simp only [get_associated_elastic_ips, hok]

/-- Witness for C1 at the sample provider. -/
theorem claim_C1_resource_ordering_witness :
    discover_all_resources sampleProvider sampleId = some sampleResult ∧
    ordering_contract sampleProvider sampleId sampleResult :=
  ⟨rfl, claim_C1_resource_ordering sampleProvider sampleId sampleResult rfl⟩

/-- Scalar values: everything the CSV flattener passes through
unchanged (`None`, strings, numbers, booleans). -/
def isScalar : Value → Bool
  | Value.vlist _ => false
  | Value.vdict _ => false
  | _ => true

/-- Membership in the first-seen-order key union is plain membership. -/
theorem mem_unionKeys {k : String} {ks : List String} :
    k ∈ unionKeys ks ↔ k ∈ ks := by
  suffices h : ∀ acc, k ∈ ks.foldl
      (fun acc k' => if acc.contains k' then acc else acc ++ [k']) acc ↔
      k ∈ acc ∨ k ∈ ks by
    simpa [unionKeys] using h []
  induction ks with
  | nil => intro acc; simp
  | cons a l ih =>
      intro acc
      simp only [List.foldl_cons]
      rw [ih]
      by_cases hc : acc.contains a
      · rw [if_pos hc]
        have ha : a ∈ acc := by simpa using hc
        constructor
        · rintro (h | h)
          · exact Or.inl h
          · exact Or.inr (List.mem_cons_of_mem a h)
        · rintro (h | h)
          · exact Or.inl h
          · rcases List.mem_cons.mp h with rfl | h
            · exact Or.inl ha
            · exact Or.inr h
      · rw [if_neg hc]
        simp only [List.mem_append, List.mem_singleton, List.mem_cons]
        tauto

/-- Any output of flattening one entry of a record belongs to the
record's flattened row. -/
theorem mem_flatten_resource {r : Resource} {kv kv' : String × Value}
    (hkv : kv ∈ r) (h : kv' ∈ flatten_entry kv) : kv' ∈ flatten_resource r :=
  List.mem_flatMap.mpr ⟨kv, hkv, h⟩

/-- Any key of a flattened row of a listed resource appears in the CSV
header. -/
theorem mem_csv_header_of_mem {resources : List Resource} {r : Resource}
    {k : String} {v : Value}
    (hr : r ∈ resources) (h : (k, v) ∈ flatten_resource r) :
    k ∈ csv_header resources :=
  mem_unionKeys.mpr
    (List.mem_flatMap.mpr ⟨r, hr, List.mem_map.mpr ⟨(k, v), h, rfl⟩⟩)

/-- C9: for every resource record in the CSV export, each top-level
scalar field survives as a column under its own name, each tag key k
becomes a column tags_k holding the tag value (for any mapping-valued
field), each sequence-valued field becomes one comma-joined column, and
the header is the union of all flattened keys across the records. -/
theorem claim_C9_csv_flatten (resources : List Resource) (r : Resource)
    (hr : r ∈ resources) :
    (∀ k v, (k, v) ∈ r → isScalar v = true →
      (k, v) ∈ flatten_resource r ∧ k ∈ csv_header resources) ∧
    (∀ k tags, (k, Value.vdict tags) ∈ r → ∀ tk tv, (tk, tv) ∈ tags →
      (k ++ "_" ++ tk, Value.vstr tv) ∈ flatten_resource r ∧
      (k ++ "_" ++ tk) ∈ csv_header resources) ∧
    (∀ k xs, (k, Value.vlist xs) ∈ r →
      (k, Value.vstr (String.intercalate ", " xs)) ∈ flatten_resource r ∧
      k ∈ csv_header resources) ∧
    (∀ k, k ∈ csv_header resources ↔
      ∃ r2 ∈ resources, ∃ v, (k, v) ∈ flatten_resource r2) := by
  refine ⟨?_, ?_, ?_, ?_⟩
  · intro k v hkv hscalar
    have hmem : (k, v) ∈ flatten_entry (k, v) := by
      cases v <;> simp_all [flatten_entry, isScalar]
    have h := mem_flatten_resource hkv hmem
    exact ⟨h, mem_csv_header_of_mem hr h⟩
  · intro k tags hkv tk tv htag
    have hmem : (k ++ "_" ++ tk, Value.vstr tv) ∈ flatten_entry (k, Value.vdict tags) := by
      simp only [flatten_entry, List.mem_map]
      exact ⟨(tk, tv), htag, rfl⟩
    have h := mem_flatten_resource hkv hmem
    exact ⟨h, mem_csv_header_of_mem hr h⟩
  · intro k xs hkv
    have hmem : (k, Value.vstr (String.intercalate ", " xs)) ∈
        flatten_entry (k, Value.vlist xs) := by
      simp [flatten_entry]
    have h := mem_flatten_resource hkv hmem
    exact ⟨h, mem_csv_header_of_mem hr h⟩
  · intro k
    constructor
    · intro h
      have h2 := mem_unionKeys.mp h
      obtain ⟨r2, hr2, hk⟩ := List.mem_flatMap.mp h2
      obtain ⟨kv, hkv, hfst⟩ := List.mem_map.mp hk
      subst hfst
      exact ⟨r2, hr2, kv.2, hkv⟩
    · intro ⟨r2, hr2, v, hv⟩
      exact mem_csv_header_of_mem hr2 hv

/-- Sample volume record used by the C9 witness. -/
def sampleVolumeRecord : Resource := volume_info sampleId sampleVolume

/-- Witness for C9 at a one-record export of the sample volume. -/
theorem claim_C9_csv_flatten_witness :
    (∀ k v, (k, v) ∈ sampleVolumeRecord → isScalar v = true →
      (k, v) ∈ flatten_resource sampleVolumeRecord ∧
      k ∈ csv_header [sampleVolumeRecord]) ∧
    (∀ k tags, (k, Value.vdict tags) ∈ sampleVolumeRecord →
      ∀ tk tv, (tk, tv) ∈ tags →
      (k ++ "_" ++ tk, Value.vstr tv) ∈ flatten_resource sampleVolumeRecord ∧
      (k ++ "_" ++ tk) ∈ csv_header [sampleVolumeRecord]) ∧
    (∀ k xs, (k, Value.vlist xs) ∈ sampleVolumeRecord →
      (k, Value.vstr (String.intercalate ", " xs)) ∈
        flatten_resource sampleVolumeRecord ∧
      k ∈ csv_header [sampleVolumeRecord]) ∧
    (∀ k, k ∈ csv_header [sampleVolumeRecord] ↔
      ∃ r2 ∈ [sampleVolumeRecord], ∃ v, (k, v) ∈ flatten_resource r2) :=
  claim_C9_csv_flatten [sampleVolumeRecord] sampleVolumeRecord (by simp)

end EC2Discovery
